import Mathlib

/-!
Shallow embedding of the solarlog2mqtt core (Python) used to check the
natural-language specification against the implementation.

Source files embedded here:
- src/src/solarlog2mqtt/core/data_processor.py   (DataProcessor methods)
- src/src/solarlog2mqtt/core/solar_log_client.py (SolarLogClient.login / make_request)
- src/src/solarlog2mqtt/__main__.py              (check_access_denied / process_fast_poll_data)
- src/solarlog2mqtt_core/constants.py            (constants)

Modelling conventions:
- Device payload cells are modelled by `Jv` (null / int / string / array),
  mirroring the JSON values the device returns.  Python truthiness, `str()`
  and `int()` on such cells are modelled by `Jv.truthy`, `Jv.toStr` and
  `Jv.asInt`.  Python's `int()` raises on a non-numeric string; the embedding
  returns 0 there (no claim exercises that path, and the surrounding Python
  code catches and logs such exceptions).
- Published values are modelled by `Pub` (int / rational / string / bool);
  Python float arithmetic on the small ratio computations is modelled by
  exact rationals, and Python's `round` (banker's rounding) by `pyRound`.
- Each `process_*` method is translated to a function from its (typed)
  payload and the relevant `DataProcessor` state to the ordered list of
  `(topic, value)` pairs it publishes, plus any state updates.
-/

namespace SolarLog

/-- JSON-ish value appearing in Solar-Log payload cells. -/
inductive Jv where
  | null
  | i (n : Int)
  | s (v : String)
  | a (xs : List Jv)

mutual

/-- Decidable equality for `Jv` (nested through lists, so written by hand). -/
def Jv.decEq : (a b : Jv) → Decidable (a = b)
  | .null, .null => isTrue rfl
  | .null, .i _ => isFalse (fun h => Jv.noConfusion h)
  | .null, .s _ => isFalse (fun h => Jv.noConfusion h)
  | .null, .a _ => isFalse (fun h => Jv.noConfusion h)
  | .i _, .null => isFalse (fun h => Jv.noConfusion h)
  | .i n, .i m =>
    match (inferInstance : Decidable (n = m)) with
    | isTrue h => isTrue (by rw [h])
    | isFalse h => isFalse (fun hh => h (by injection hh))
  | .i _, .s _ => isFalse (fun h => Jv.noConfusion h)
  | .i _, .a _ => isFalse (fun h => Jv.noConfusion h)
  | .s _, .null => isFalse (fun h => Jv.noConfusion h)
  | .s _, .i _ => isFalse (fun h => Jv.noConfusion h)
  | .s v, .s w =>
    match (inferInstance : Decidable (v = w)) with
    | isTrue h => isTrue (by rw [h])
    | isFalse h => isFalse (fun hh => h (by injection hh))
  | .s _, .a _ => isFalse (fun h => Jv.noConfusion h)
  | .a _, .null => isFalse (fun h => Jv.noConfusion h)
  | .a _, .i _ => isFalse (fun h => Jv.noConfusion h)
  | .a _, .s _ => isFalse (fun h => Jv.noConfusion h)
  | .a xs, .a ys =>
    match Jv.decEqList xs ys with
    | isTrue h => isTrue (by rw [h])
    | isFalse h => isFalse (fun hh => h (by injection hh))

/-- Decidable equality for lists of `Jv`. -/
def Jv.decEqList : (xs ys : List Jv) → Decidable (xs = ys)
  | [], [] => isTrue rfl
  | [], _ :: _ => isFalse (fun h => List.noConfusion h)
  | _ :: _, [] => isFalse (fun h => List.noConfusion h)
  | x :: xs, y :: ys =>
    match Jv.decEq x y with
    | isFalse h => isFalse (fun hh => h (by injection hh))
    | isTrue h1 =>
      match Jv.decEqList xs ys with
      | isTrue h2 => isTrue (by rw [h1, h2])
      | isFalse h2 => isFalse (fun hh => h2 (by injection hh))

end

instance : DecidableEq Jv := Jv.decEq

/-- Python truthiness of a payload cell (`if value:`). -/
def Jv.truthy : Jv → Bool
  | .null => false
  | .i n => if n = 0 then false else true
  | .s v => if v = "" then false else true
  | .a [] => false
  | .a (_ :: _) => true

/-- Python `str()` of a payload cell.  For an array Python renders the list;
no embedded claim depends on that rendering, so a placeholder is used. -/
def Jv.toStr : Jv → String
  | .null => "None"
  | .i n => toString n
  | .s v => v
  | .a _ => "[list]"

/-- Python `int()` of a payload cell.  `int()` of a non-numeric string or of
a list raises in Python (the callers catch the exception); the embedding
returns 0 for those cells, which no claim exercises. -/
def Jv.asInt : Jv → Int
  | .null => 0
  | .i n => n
  | .s v => (v.toInt?).getD 0
  | .a _ => 0

/-- A value handed to `MQTTPublisher.publish`.  Every fractional value the
code publishes has the shape `round(x) / 10` (a one-decimal percentage);
`Pub.ratio t` stands for that Python float of value `t / 10`. -/
inductive Pub where
  | i (n : Int)
  | ratio (tenths : Int)
  | s (v : String)
  | b (v : Bool)
deriving DecidableEq

/-- Publishing a raw payload cell (Python hands the object to `publish`). -/
def Jv.toPub : Jv → Pub
  | .null => .s "None"
  | .i n => .i n
  | .s v => .s v
  | .a _ => .s "[list]"

/-- Python's `round(num / den)` for a positive denominator, on the exact
fraction: nearest integer, ties to even.  (Python computes the quotient in
binary floating point before rounding; for the small values the claims
exercise the exact fraction and the float agree.) -/
def pyRoundFrac (num den : Int) : Int :=
  let q := Int.fdiv num den
  let r := num - q * den
  if 2 * r < den then q
  else if den < 2 * r then q + 1
  else if q % 2 = 0 then q else q + 1

/-- Fuel-driven floor base-2 logarithm (structural, so the kernel can
evaluate it). -/
def log2Fuel : Nat → Nat → Nat
  | 0, _ => 0
  | fuel + 1, n => if n ≤ 1 then 0 else 1 + log2Fuel fuel (n / 2)

/-- `int(math.log(m) / math.log(2))` of data_processor.py line 198: the
floor base-2 logarithm (exact for the bitmask magnitudes that occur; the
float computation can only differ on astronomically large masks). -/
def intLog2 (n : Nat) : Nat := log2Fuel n n

/-- `concatMap`, avoiding version-dependent list API names. -/
def concatMap (f : α → List β) : List α → List β
  | [] => []
  | x :: t => f x ++ concatMap f t

/-- `enumerate` over a list, pairing each element with its index. -/
def enumIdx (l : List α) : List (Nat × α) :=
  (List.range l.length).zip l

/-- Helper for Python's substring test `needle in hay` on char lists. -/
def strInAux (needle : List Char) : List Char → Bool
  | [] => needle.isEmpty
  | c :: t => needle.isPrefixOf (c :: t) || strInAux needle t

/-- Python's substring containment `needle in hay` for strings. -/
def strIn (needle hay : String) : Bool :=
  strInAux needle.toList hay.toList

/-- Chars of `hay` starting right after the first occurrence of `pat`
(`hay.find(pat) + len(pat)`); empty if `pat` does not occur. -/
def dropThroughPat (pat : List Char) : List Char → List Char
  | [] => []
  | c :: t => if pat.isPrefixOf (c :: t) then (c :: t).drop pat.length else dropThroughPat pat t

/-- Token extraction from `set-cookie` in `SolarLogClient.login`
(solar_log_client.py lines 105-111): the slice from right after
`"SolarLog="` up to the next `';'` (or the end of the string). -/
def extractToken (cookie : String) : String :=
  String.mk ((dropThroughPat "SolarLog=".toList cookie.toList).takeWhile (fun c => c ≠ ';'))

/-- Python slice `s[-2:]`. -/
def pyLast2 (v : String) : String :=
  String.mk ((v.toList.reverse.take 2).reverse)

/-- Python slice `s[3:5]`. -/
def pySlice35 (v : String) : String :=
  String.mk ((v.toList.drop 3).take 2)

/-! ## Constants (src/solarlog2mqtt_core/constants.py) -/

def MAX_REQUEST_FAILURES : Nat := 4
def MAX_SWITCH_GROUPS : Nat := 10
def DAYS_TO_CHECK_HISTORY : Nat := 31

/-- constants.py lines 33-44. -/
def DEVICE_CLASS_LIST : List String :=
  ["Wechselrichter", "Sensor", "Zähler", "Hybrid-System", "Batterie",
   "Intelligente Verbraucher", "Schalter", "Wärmepumpe", "Heizstab", "Ladestation"]

/-! ## DataProcessor state (data_processor.py `__init__`, lines 28-54) -/

/-- One entry of the device classification table `739`.  The Python code
reads `device_info[0]` (brand index), `device_info[1]` (type name) and
`device_info[5]` (class bitmask, `none` when absent or unparseable). -/
structure DeviceEntry where
  brandIdx : Int
  typeName : String
  classMask : Option Int
deriving DecidableEq

/-- Mutable state of `DataProcessor`; defaults mirror `__init__`. -/
structure PState where
  numInverters : Nat := 0
  inverterNames : List String := []
  deviceInfos : List Int := []
  deviceTypes : List String := []
  deviceBrands : List String := []
  deviceClasses : List String := []
  switchGroupNames : List (Option String) := []
  batteryDevicePresent : Bool := false
  batteryIndex : List Nat := []
  deviceList : List (Int × DeviceEntry) := []
  brandList : List (Int × String) := []
  batteryPresent : Bool := false
  lastYieldDay : Int := 0
  lastYieldYesterday : Int := 0
  fallbackSelfcons : Int := 99
  fallbackRatioPub : Pub := Pub.i 99
  totalPowerW : Int := 0

/-! ## Device classification (data_processor.py `classify_devices`, lines 98-251) -/

/-- `get_from_indexed` (lines 126-135): indexed lookup in the sparse
device/brand tables (Python dict keyed by the integer code). -/
def lookupIndexed (l : List (Int × α)) (k : Int) : Option α :=
  (l.find? (fun p => p.1 == k)).map (fun p => p.2)

/-- Classification of one device from its info code (the body of the
per-device loop, lines 137-233).  A missing table entry yields the
`"Unknown"/"Unknown"/"Wechselrichter"` triple (lines 223-227).  For a present
entry the class bitmask is mapped through `int(math.log(m)/math.log(2))`
into `DEVICE_CLASS_LIST` (lines 196-205), modelled by `Nat.log 2`; a
non-positive or absent mask, or an out-of-range log index, falls back to
`"Wechselrichter"`. -/
def classifyOne (deviceList : List (Int × DeviceEntry)) (brandList : List (Int × String))
    (infoCode : Int) : String × String × String :=
  match lookupIndexed deviceList infoCode with
  | none => ("Unknown", "Unknown", "Wechselrichter")
  | some e =>
    let deviceType := e.typeName
    let deviceBrand := (lookupIndexed brandList e.brandIdx).getD "Unknown"
    let deviceClass :=
      match e.classMask with
      | some m =>
        if 0 < m then
          let classIdx := intLog2 m.toNat
          if classIdx < DEVICE_CLASS_LIST.length then DEVICE_CLASS_LIST.getD classIdx "Wechselrichter"
          else "Wechselrichter"
        else "Wechselrichter"
      | none => "Wechselrichter"
    (deviceType, deviceBrand, deviceClass)

/-- `classify_devices` (lines 98-251): placeholder lists when the tables or
`device_infos` are empty (lines 111-118), otherwise one classification per
`zip(inverter_names, device_infos)` element.  Returns
(types, brands, classes). -/
def classifyDevices (st : PState) : List String × List String × List String :=
  if st.deviceList = [] ∨ st.brandList = [] ∨ st.deviceInfos = [] then
    (List.replicate st.inverterNames.length "Unknown",
     List.replicate st.inverterNames.length "Unknown",
     List.replicate st.inverterNames.length "Wechselrichter")
  else
    let results := (st.inverterNames.zip st.deviceInfos).map
      (fun nc => classifyOne st.deviceList st.brandList nc.2)
    (results.map (fun r => r.1), results.map (fun r => r.2.1), results.map (fun r => r.2.2))

/-! ## Fast poll (data_processor.py lines 450-628, __main__.py lines 259-287) -/

/-- Typed fast-poll payload, one field per key the decoder reads.
`f794_0` is `data["794"]["0"]`, `f801_175` is `data["801"]["175"]`
(each switch-group entry: `none` = absent/falsy dict, `some v` = a dict
whose key `101` holds `v`). -/
structure FastPayload where
  f608 : Option (List Jv) := none
  f780 : Option Jv := none
  f781 : Option Jv := none
  f782 : Option (List Jv) := none
  f784 : Option (List Jv) := none
  f785 : Option (List Jv) := none
  f794_0 : Option (List (List Jv)) := none
  f801_175 : Option (List (Option (Option Int))) := none
  f858 : Option (List Jv) := none

/-- `process_inverter_status` (lines 452-482): per-inverter status and PAC
from tables 608/782, skipping battery-classed indices. -/
def processInverterStatus (st : PState) (f608 f782 : Option (List Jv)) :
    List (String × Pub) :=
  match f608, f782 with
  | some statusData, some pacData =>
    if st.inverterNames ≠ [] then
      concatMap (fun idx =>
        if idx < st.deviceClasses.length ∧ st.deviceClasses.getD idx "" ≠ "Batterie" then
          let inverterName := st.inverterNames.getD idx ""
          let status := statusData.getD idx (Jv.s "Unknown")
          let pacValue := pacData.getD idx (Jv.i 0)
          let pac : Int := if pacValue.truthy then pacValue.asInt else 0
          [("INV/" ++ inverterName ++ "/status", status.toPub),
           ("INV/" ++ inverterName ++ "/PAC", Pub.i pac)]
        else []) (List.range st.inverterNames.length)
    else []
  | _, _ => []

/-- `process_inverter_extras` (lines 484-513): optional per-inverter
UAC (784) / UDC (785) arrays.  A cell that is absent or null publishes 0. -/
def processInverterExtras (st : PState) (f784 f785 : Option (List Jv)) :
    List (String × Pub) :=
  if st.inverterNames = [] then []
  else
    let one := fun (arr : List Jv) (suffix : String) =>
      concatMap (fun p =>
        let v : Int :=
          match arr[p.1]? with
          | some x => if x ≠ Jv.null then x.asInt else 0
          | none => 0
        [("INV/" ++ p.2 ++ "/" ++ suffix, Pub.i v)]) (enumIdx st.inverterNames)
    (match f784 with
     | some arr => one arr "UAC"
     | none => []) ++
    (match f785 with
     | some arr => one arr "UDC"
     | none => [])

/-- `process_switch_group_states` (lines 515-535): per-group live state
from 801/175. -/
def processSwitchGroupStates (st : PState) (f801_175 : Option (List (Option (Option Int)))) :
    List (String × Pub) :=
  match f801_175 with
  | some sgData =>
    if st.switchGroupNames ≠ [] then
      concatMap (fun sgsj =>
        match st.switchGroupNames.getD sgsj none with
        | none => []
        | some sgName =>
          if sgsj < sgData.length then
            match sgData.getD sgsj none with
            | some (some sgState) => [("SwitchGroup/" ++ sgName ++ "/state", Pub.i sgState)]
            | _ => []
          else []) (List.range (min MAX_SWITCH_GROUPS st.switchGroupNames.length))
    else []
  | none => []

/-- `process_display_data` (lines 582-609): overall display health from 16
elements (each element's second value, if truthy, is an error flag; a short
element contributes `True` to the raw list, making the overall AND false),
plus four icon/error pairs at fixed indices. -/
def processDisplayData (dd : List (List Jv)) : List (String × Pub) :=
  if dd.length < 16 then []
  else
    let checkOk := (List.range (min 16 dd.length)).map (fun di =>
      let el := dd.getD di []
      if 1 < el.length then (el.getD 1 Jv.null).truthy else true)
    let displayOk := checkOk.all (fun errval => ! errval)
    [("display/OK", Pub.b displayOk)] ++
    concatMap (fun t =>
      let idx := t.1
      if idx < dd.length ∧ 2 ≤ (dd.getD idx []).length then
        [("display/" ++ t.2.1, ((dd.getD idx []).getD 0 Jv.null).toPub),
         ("display/" ++ t.2.2, ((dd.getD idx []).getD 1 Jv.null).toPub)]
      else [])
      [(0, "invicon", "inverror"), (1, "networkicon", "networkerror"),
       (6, "metericon", "metersoffline"), (11, "mailicon", "mailerror")]

/-- `process_battery_data` (lines 537-558): the 858 array zero-padded to
length 4, plus battery metrics for the first battery-classed inverter.
Returns the padded array and the publishes. -/
def processBatteryData (st : PState) (f858 : Option (List Jv)) :
    List Jv × List (String × Pub) :=
  match f858 with
  | none => ([Jv.i 0, Jv.i 0, Jv.i 0, Jv.i 0], [])
  | some l =>
    let batteryData :=
      if l ≠ [] then l ++ List.replicate (4 - l.length) (Jv.i 0)
      else [Jv.i 0, Jv.i 0, Jv.i 0, Jv.i 0]
    let pubs :=
      if st.batteryPresent ∧ st.batteryDevicePresent ∧ st.batteryIndex ≠ [] then
        let batteryInvIdx := st.batteryIndex.headD 0
        if batteryInvIdx < st.inverterNames.length then
          let nm := st.inverterNames.getD batteryInvIdx ""
          [("INV/" ++ nm ++ "/BattLevel", (batteryData.getD 1 Jv.null).toPub),
           ("INV/" ++ nm ++ "/ChargePower", (batteryData.getD 2 Jv.null).toPub),
           ("INV/" ++ nm ++ "/DischargePower", (batteryData.getD 3 Jv.null).toPub)]
        else []
      else []
    (batteryData, pubs)

/-- `process_production_consumption` (lines 560-580): net production and
consumption (after subtracting battery discharge/charge), and the feed
in/out split on the sign of `production - consumption`.  Publishes nothing
unless both 780 and 781 are present. -/
def processProductionConsumption (f780 f781 : Option Jv) (batteryData : List Jv) :
    List (String × Pub) :=
  match f780, f781 with
  | some p, some c =>
    let production : Int := if p.truthy then p.asInt else 0
    let consumption : Int := if c.truthy then c.asInt else 0
    let netProduction := production - (batteryData.getD 3 Jv.null).asInt
    let netConsumption := consumption - (batteryData.getD 2 Jv.null).asInt
    let feed := production - consumption
    [("status/pac", Pub.i netProduction),
     ("status/conspac", Pub.i netConsumption),
     ("status/feed", Pub.i feed)] ++
    (if 0 < feed then
      [("status/feedin", Pub.i feed),
       ("status/feedinactive", Pub.b true),
       ("status/feedout", Pub.i 0)]
    else
      [("status/feedin", Pub.i 0),
       ("status/feedinactive", Pub.b false),
       ("status/feedout", Pub.i (feed.natAbs : Int))])
  | _, _ => []

/-- `process_fast_poll` (lines 611-628): the fast-poll pipeline, in call
order. -/
def processFastPoll (st : PState) (p : FastPayload) : List (String × Pub) :=
  processInverterStatus st p.f608 p.f782 ++
  processInverterExtras st p.f784 p.f785 ++
  processSwitchGroupStates st p.f801_175 ++
  (match p.f794_0 with
   | some dd => processDisplayData dd
   | none => []) ++
  (processBatteryData st p.f858).2 ++
  processProductionConsumption p.f780 p.f781 (processBatteryData st p.f858).1

/-- `check_access_denied` (__main__.py lines 259-272): only the FIRST entry
of the 608 status field is examined for the `"DENIED"` sentinel. -/
def checkAccessDenied (f608 : Option (List Jv)) : Bool :=
  match f608 with
  | some [] => false
  | some (firstStatus :: _) => (firstStatus != Jv.null) && strIn "DENIED" firstStatus.toStr
  | none => false

/-- `process_fast_poll_data` (__main__.py lines 275-287): when access is
denied the bridge-restart path is taken (first component `true`) and no
metric from the payload is published; otherwise the fast-poll pipeline
runs. -/
def processFastPollData (st : PState) (p : FastPayload) : Bool × List (String × Pub) :=
  if checkAccessDenied p.f608 then (true, [])
  else (false, processFastPoll st p)

/-! ## Periodic poll (data_processor.py lines 678-882) -/

/-- A historic/periodic table row: the list of its JSON cells
(`row[0]` is normally a date string). -/
abbrev HRow := List Jv

/-- The row-scan shared by `process_inverter_day_sums` (lines 692-697):
first index whose date cell contains the pattern (the Python loop breaks on
the first match). -/
def scanFirstIdx (rows : List HRow) (pat : String) : Option Nat :=
  (List.range (min DAYS_TO_CHECK_HISTORY rows.length)).findSome? (fun i =>
    match (rows.getD i []).head? with
    | some cell => if strIn pat cell.toStr then some i else none
    | none => none)

/-- The row-scan of `process_self_consumption` (lines 729-735): the loop
does not break, so the LAST matching index wins. -/
def scanIdx (rows : List HRow) (pat : String) : Option Nat :=
  (List.range (min DAYS_TO_CHECK_HISTORY rows.length)).foldl
    (fun acc i =>
      match (rows.getD i []).head? with
      | some cell => if strIn pat cell.toStr then some i else acc
      | none => acc)
    none

/-- `entry[1] if len(entry) > 1 and entry[1] else 0` (lines 738-740 and
775-779): the self-consumption value of a matched row. -/
def selfconsValue (entry : HRow) : Int :=
  if 1 < entry.length ∧ (entry.getD 1 Jv.null).truthy = true then (entry.getD 1 Jv.null).asInt
  else 0

/-- `process_inverter_day_sums` (lines 680-720): per-inverter day sums from
777/0 for the row matching today's date, skipping battery-classed indices.
A malformed per-inverter cell list aborts with no publishes (the Python
exception is caught by the method's own handler). -/
def processInverterDaySums (st : PState) (today : String) (rows : List HRow) :
    List (String × Pub) :=
  if st.inverterNames = [] ∨ st.deviceClasses = [] then []
  else
    match scanFirstIdx rows today with
    | none => []
    | some i =>
      let entry := rows.getD i []
      if entry.length < 2 then []
      else
        match entry.getD 1 Jv.null with
        | .a daysumData =>
          let namLength := min (min st.inverterNames.length st.deviceClasses.length) daysumData.length
          concatMap (fun suzi =>
            if suzi < st.deviceClasses.length ∧ st.deviceClasses.getD suzi "" ≠ "Batterie" then
              let v := daysumData.getD suzi (Jv.i 0)
              [("INV/" ++ st.inverterNames.getD suzi "" ++ "/daysum",
                Pub.i (if v.truthy then v.asInt else 0))]
            else []) (List.range namLength)
        | _ => []

/-- Result of `process_self_consumption`: the ordered publishes, the updated
state, and whether an uncaught IndexError inside the battery block ended the
method early (swallowed by the method's own exception handler, so later
publishes are lost but earlier ones stand). -/
structure SCResult where
  pubs : List (String × Pub)
  state : PState
  aborted : Bool

/-- The battery sub-block of the today branch (lines 749-772): publishes the
three battery day figures when a battery is flagged and the row is long
enough.  When a battery device is flagged but its index is out of range of
`inverter_names`, Python raises an IndexError before publishing anything
(second component `true`), which the method's handler swallows — ending the
method early. -/
def battTodayPubs (st : PState) (entry : HRow) : List (String × Pub) × Bool :=
  if (st.batteryDevicePresent || st.batteryPresent) ∧ 5 ≤ entry.length then
    if st.batteryDevicePresent ∧ st.batteryIndex ≠ [] then
      match st.inverterNames[st.batteryIndex.headD 0]? with
      | some nm =>
        ([("INV/" ++ nm ++ "/BattSelfCons", Pub.i (entry.getD 2 Jv.null).asInt),
          ("INV/" ++ nm ++ "/BattChargeDaysum", Pub.i (entry.getD 3 Jv.null).asInt),
          ("INV/" ++ nm ++ "/BattDischargeDaysum", Pub.i (entry.getD 4 Jv.null).asInt)],
         false)
      | none => ([], true)
    else
      ([("INV/Battery/BattSelfCons", Pub.i (entry.getD 2 Jv.null).asInt),
        ("INV/Battery/BattChargeDaysum", Pub.i (entry.getD 3 Jv.null).asInt),
        ("INV/Battery/BattDischargeDaysum", Pub.i (entry.getD 4 Jv.null).asInt)],
       false)
  else ([], false)

/-- `process_self_consumption` (lines 722-799): publishes today's
self-consumption and ratio (ratio 0 when the cached daily yield is not
positive), updates the yesterday-fallback cache, optionally publishes
battery day figures, then publishes yesterday's figures or — when no
yesterday row matches — the cached fallback values. -/
def processSelfConsumption (st : PState) (today yesterday : String) (rows : List HRow) :
    SCResult :=
  let todayIndex := scanIdx rows today
  let yesterdayIndex := scanIdx rows yesterday
  let todayRes : List (String × Pub) × PState × Bool :=
    match todayIndex with
    | some i =>
      let entry := rows.getD i []
      if 1 < entry.length then
        let selfconsToday := selfconsValue entry
        let dayratio : Pub :=
          if 0 < st.lastYieldDay then
            Pub.ratio (pyRoundFrac (selfconsToday * 1000) st.lastYieldDay)
          else Pub.i 0
        let basePubs := [("SelfCons/selfconstoday", Pub.i selfconsToday),
                         ("SelfCons/selfconsratiotoday", dayratio)]
        let st1 := { st with fallbackSelfcons := selfconsToday,
                             fallbackRatioPub := dayratio }
        (basePubs ++ (battTodayPubs st entry).1, st1, (battTodayPubs st entry).2)
      else ([], st, false)
    | none => ([], st, false)
  let pubsA := todayRes.1
  let st1 := todayRes.2.1
  let aborted := todayRes.2.2
  if aborted then ⟨pubsA, st1, true⟩
  else
    let pubsB :=
      match yesterdayIndex with
      | some k =>
        let entryY := rows.getD k []
        if 1 < entryY.length then
          let selfconsYesterday := selfconsValue entryY
          let dayratioY : Pub :=
            if 0 < st1.lastYieldYesterday then
              Pub.ratio (pyRoundFrac (selfconsYesterday * 1000) st1.lastYieldYesterday)
            else Pub.i 0
          [("SelfCons/selfconsyesterday", Pub.i selfconsYesterday),
           ("SelfCons/selfconsratioyesterday", dayratioY)]
        else
          [("SelfCons/selfconsyesterday", Pub.i st1.fallbackSelfcons),
           ("SelfCons/selfconsratioyesterday", st1.fallbackRatioPub)]
      | none =>
        [("SelfCons/selfconsyesterday", Pub.i st1.fallbackSelfcons),
         ("SelfCons/selfconsratioyesterday", st1.fallbackRatioPub)]
    ⟨pubsA ++ pubsB, st1, false⟩

/-- `jget` (lines 815-823): read a key of the 801/170 summary block,
whether keyed numerically or by string, with a default. -/
def jget (j : List (Nat × Jv)) (k : Nat) (d : Jv) : Jv :=
  ((j.find? (fun p => p.1 == k)).map (fun p => p.2)).getD d

/-- The 801/170 summary block of `process_periodic_poll` (lines 843-881):
instantaneous pac/pdc/uac/udc are published only when strictly positive
("Do not overwrite fast-poll values with zeros"), `status/conspac` and all
yield totals are published unconditionally.  Returns the publishes and the
new (lastYieldDay, lastYieldYesterday, totalPowerW). -/
def processPeriodic170 (j : List (Nat × Jv)) :
    List (String × Pub) × Int × Int × Int :=
  let pacVal := (jget j 101 (Jv.i 0)).asInt
  let pdcVal := (jget j 102 (Jv.i 0)).asInt
  let uacVal := (jget j 103 (Jv.i 0)).asInt
  let udcVal := (jget j 104 (Jv.i 0)).asInt
  let lastYieldDay := (jget j 105 (Jv.i 0)).asInt
  let lastYieldYesterday := (jget j 106 (Jv.i 0)).asInt
  let totalPower := (jget j 116 (Jv.i 0)).asInt
  let pubs :=
    (if 0 < pacVal then [("status/pac", Pub.i pacVal)] else []) ++
    (if 0 < pdcVal then [("status/pdc", Pub.i pdcVal)] else []) ++
    (if 0 < uacVal then [("status/uac", Pub.i uacVal)] else []) ++
    (if 0 < udcVal then [("status/udc", Pub.i udcVal)] else []) ++
    [("status/conspac", Pub.i (jget j 110 (Jv.i 0)).asInt),
     ("status/yieldday", Pub.i lastYieldDay),
     ("status/yieldyesterday", Pub.i lastYieldYesterday),
     ("status/yieldmonth", Pub.i (jget j 107 (Jv.i 0)).asInt),
     ("status/yieldyear", Pub.i (jget j 108 (Jv.i 0)).asInt),
     ("status/yieldtotal", Pub.i (jget j 109 (Jv.i 0)).asInt),
     ("status/consyieldday", Pub.i (jget j 111 (Jv.i 0)).asInt),
     ("status/consyieldyesterday", Pub.i (jget j 112 (Jv.i 0)).asInt),
     ("status/consyieldmonth", Pub.i (jget j 113 (Jv.i 0)).asInt),
     ("status/consyieldyear", Pub.i (jget j 114 (Jv.i 0)).asInt),
     ("status/consyieldtotal", Pub.i (jget j 115 (Jv.i 0)).asInt),
     ("info/lastSync", Pub.s (jget j 100 (Jv.s "")).toStr)]
  (pubs, lastYieldDay, lastYieldYesterday, totalPower)

/-- Typed periodic-poll payload: `data["777"]["0"]`, `data["778"]["0"]` and
`data["801"]["170"]`. -/
structure PeriodicPayload where
  f777_0 : Option (List HRow) := none
  f778_0 : Option (List HRow) := none
  f801_170 : Option (List (Nat × Jv)) := none

/-- `process_periodic_poll` (lines 801-882): day sums (guarded by a
non-empty inverter-name table), self-consumption, then the 801/170 summary
block with its state updates. -/
def processPeriodicPoll (st : PState) (today yesterday : String) (p : PeriodicPayload) :
    List (String × Pub) × PState :=
  let pubs1 :=
    match p.f777_0 with
    | some rows => if st.inverterNames ≠ [] then processInverterDaySums st today rows else []
    | none => []
  let scRes :=
    match p.f778_0 with
    | some rows => processSelfConsumption st today yesterday rows
    | none => ⟨[], st, false⟩
  let st1 := scRes.state
  match p.f801_170 with
  | some j =>
    let r := processPeriodic170 j
    (pubs1 ++ scRes.pubs ++ r.1,
     { st1 with lastYieldDay := r.2.1, lastYieldYesterday := r.2.2.1,
                totalPowerW := r.2.2.2 })
  | none => (pubs1 ++ scRes.pubs, st1)

/-! ## Historic decode (data_processor.py lines 885-1075) -/

/-- The repeated aggregate block of the historic decoders (877: lines
913-938, 878: lines 959-980, months.json: lines 1010-1033, years.json:
lines 1049-1073): publish the row's self-consumption value, then — when the
row's consumption (`row[2] or 0`) is strictly positive — the ratio
`round(((row[3] * 1000) / cons) * 1000) / 10`. -/
def selfconsAggPubs (valueTopic ratioTopic : String) (e : HRow) : List (String × Pub) :=
  if 4 ≤ e.length then
    let sc := (e.getD 3 Jv.null).asInt
    let c2 := e.getD 2 Jv.null
    let cons : Int := if c2.truthy then c2.asInt else 0
    [(valueTopic, Pub.i sc)] ++
    (if 0 < cons then
      [(ratioTopic, Pub.ratio (pyRoundFrac (sc * 1000 * 1000) cons))]
    else [])
  else []

/-- Per-row monthly historic series publishes (877 loop lines 939-952 and
months.json loop lines 994-1008; both publish the same triple when
`len(entry) >= 4` and `entry[1]` is truthy). -/
def monthSeriesEntry (e : HRow) : List (String × Pub) :=
  if 4 ≤ e.length then
    let dateStr := (e.getD 0 Jv.null).toStr
    let year := pyLast2 dateStr
    let month := pySlice35 dateStr
    if (e.getD 1 Jv.null).truthy then
      [("Historic/20" ++ year ++ "/monthly/" ++ month ++ "/yieldmonth", (e.getD 1 Jv.null).toPub),
       ("Historic/20" ++ year ++ "/monthly/" ++ month ++ "/consmonth", (e.getD 2 Jv.null).toPub),
       ("Historic/20" ++ year ++ "/monthly/" ++ month ++ "/selfconsmonth", (e.getD 3 Jv.null).toPub)]
    else []
  else []

/-- Per-row yearly historic series publishes (878 loop lines 981-986 and
years.json loop lines 1041-1048). -/
def yearSeriesEntry (e : HRow) : List (String × Pub) :=
  if 4 ≤ e.length then
    let year := pyLast2 (e.getD 0 Jv.null).toStr
    if (e.getD 1 Jv.null).truthy then
      [("Historic/20" ++ year ++ "/yieldyear", (e.getD 1 Jv.null).toPub),
       ("Historic/20" ++ year ++ "/consyear", (e.getD 2 Jv.null).toPub),
       ("Historic/20" ++ year ++ "/selfconsyear", (e.getD 3 Jv.null).toPub)]
    else []
  else []

/-- One 854 row (lines 897-906): per-inverter yearly yields.  A non-array
`entry[1]` would raise in Python (aborting historic processing); the
embedding publishes nothing for such a row. -/
def invYearEntry (names : List String) (e : HRow) : List (String × Pub) :=
  if 2 ≤ e.length ∧ (e.getD 1 Jv.null).truthy = true then
    let year := pyLast2 (e.getD 0 Jv.null).toStr
    match e.getD 1 Jv.null with
    | .a inverterData =>
      concatMap (fun p =>
        if p.1 < inverterData.length ∧ (inverterData.getD p.1 Jv.null).truthy = true then
          [("Historic/20" ++ year ++ "/yieldyearINV/" ++ p.2,
            (inverterData.getD p.1 Jv.null).toPub)]
        else []) (enumIdx names)
    | _ => []
  else []

/-- Typed /getjp historic payload for keys 854/877/878. -/
structure HistoricPayload where
  h854 : Option (List HRow) := none
  h877 : Option (List HRow) := none
  h878 : Option (List HRow) := none

/-- `process_historic_response` (lines 885-988): 854 per-inverter series,
877 monthly aggregates (current = LAST row `data[-1]`, previous =
second-to-last row `data[-2]`) and series, 878 yearly aggregates (same
last-row rule) and series. -/
def processHistoricResponse (st : PState) (h : HistoricPayload) : List (String × Pub) :=
  (match h.h854 with
   | some rows => concatMap (invYearEntry st.inverterNames) rows
   | none => []) ++
  (match h.h877 with
   | some rows =>
     (if 2 ≤ rows.length then
        selfconsAggPubs "SelfCons/selfconsmonth" "SelfCons/selfconsratiomonth"
          (rows.getD (rows.length - 1) []) ++
        selfconsAggPubs "SelfCons/selfconslastmonth" "SelfCons/selfconsratiolastmonth"
          (rows.getD (rows.length - 2) [])
      else []) ++
     concatMap monthSeriesEntry rows
   | none => []) ++
  (match h.h878 with
   | some rows =>
     (if 2 ≤ rows.length then
        selfconsAggPubs "SelfCons/selfconsyear" "SelfCons/selfconsratioyear"
          (rows.getD (rows.length - 1) []) ++
        selfconsAggPubs "SelfCons/selfconslastyear" "SelfCons/selfconsratiolastyear"
          (rows.getD (rows.length - 2) [])
      else []) ++
     concatMap yearSeriesEntry rows
   | none => [])

/-- `process_months_json` (lines 990-1035): the per-row series loop, then the
aggregate block taking the current month from `data[0]` (the FIRST row) and
the previous month from `data[1]` (the SECOND row). -/
def processMonthsJson (rows : List HRow) : List (String × Pub) :=
  concatMap monthSeriesEntry rows ++
  (if 2 ≤ rows.length then
    selfconsAggPubs "SelfCons/selfconsmonth" "SelfCons/selfconsratiomonth" (rows.getD 0 []) ++
    (if 1 < rows.length then
      selfconsAggPubs "SelfCons/selfconslastmonth" "SelfCons/selfconsratiolastmonth"
        (rows.getD 1 [])
    else [])
  else [])

/-- `process_years_json` (lines 1037-1075): the per-row series loop, then the
aggregate block taking the current year from `data[0]` and the previous year
from `data[1]`. -/
def processYearsJson (rows : List HRow) : List (String × Pub) :=
  concatMap yearSeriesEntry rows ++
  (if 2 ≤ rows.length then
    selfconsAggPubs "SelfCons/selfconsyear" "SelfCons/selfconsratioyear" (rows.getD 0 []) ++
    (if 1 < rows.length then
      selfconsAggPubs "SelfCons/selfconslastyear" "SelfCons/selfconsratiolastyear"
        (rows.getD 1 [])
    else [])
  else [])

/-! ## SolarLogClient (solar_log_client.py) -/

/-- Outcome of the HTTP login call as seen by `SolarLogClient.login`. -/
inductive LoginOutcome where
  | transportError
  | resp (status : Nat) (setCookie : String)
deriving DecidableEq

/-- `SolarLogClient.login` (lines 85-125) as a function of the credential
flag, the session-present flag, the current failure counter, the current
token and the HTTP outcome; returns (result, loginFailures, dataToken).
With no credentials (or no session) it returns True without any request.
On a 200 response with a `SolarLog=` cookie it stores the token and resets
the counter; on a 200 response without the token it returns False leaving
the counter unchanged; on any other status or a transport error/timeout it
increments the counter; it never raises. -/
def login (userPass sessionPresent : Bool) (loginFailures : Nat) (dataToken : String)
    (o : LoginOutcome) : Bool × Nat × String :=
  if ¬ userPass ∨ ¬ sessionPresent then (true, loginFailures, dataToken)
  else
    match o with
    | .transportError => (false, loginFailures + 1, dataToken)
    | .resp status setCookie =>
      if status = 200 then
        if strIn "SolarLog=" setCookie then (true, 0, extractToken setCookie)
        else (false, loginFailures, dataToken)
      else (false, loginFailures + 1, dataToken)

/-- Whether `json.loads` of the response body succeeds. -/
inductive DecodeResult where
  | ok
  | fail
deriving DecidableEq

/-- Outcome of one HTTP request as seen by `SolarLogClient.make_request`. -/
inductive HttpOutcome where
  | transportError
  | resp (status : Nat) (body : DecodeResult)
deriving DecidableEq

/-- `SolarLogClient.make_request` (lines 154-211) as a function of the
request string, the current request-failure counter and the HTTP outcome;
returns (success flag standing for a non-None payload, new counter).  The
static-resource branch is taken when `".json" in request_data`; only a
transport error/timeout increments the counter, and only a successfully
decoded /getjp response resets it to 0. -/
def makeRequest (requestData : String) (counter : Nat) (o : HttpOutcome) : Bool × Nat :=
  if strIn ".json" requestData then
    match o with
    | .transportError => (false, counter + 1)
    | .resp status body =>
      if status = 200 then
        match body with
        | .ok => (true, counter)
        | .fail => (false, counter)
      else (false, counter)
  else
    match o with
    | .transportError => (false, counter + 1)
    | .resp status body =>
      if status = 200 then
        match body with
        | .ok => (true, 0)
        | .fail => (false, counter)
      else (false, counter)

/-- A response outcome that is a non-200 status or a JSON decode failure
(the failures claimed never to move the request counter). -/
def isFailedResponse : HttpOutcome → Bool
  | .transportError => false
  | .resp status body => (status != 200) || (body == DecodeResult.fail)

/-- The request counter after a sequence of requests (each given by its
request string and HTTP outcome). -/
def runRequests (reqs : List (String × HttpOutcome)) (c : Nat) : Nat :=
  reqs.foldl (fun acc r => (makeRequest r.1 acc r.2).2) c

/-! ## Concrete inputs used by witnesses/counterexamples -/

/-- Concrete state for the C3 witness: device 0 has a table entry (mask 4 =
class "Zähler"), device 1 has no table entry. -/
def c3st : PState :=
  { inverterNames := ["A", "B"], deviceInfos := [5, 7],
    deviceList := [(5, ⟨0, "TypeX", some 4⟩)], brandList := [(0, "BrandX")] }

/-- The month-aggregate rows of end-to-end scenario 3. -/
def c4rows : List HRow :=
  [[Jv.s "d0", Jv.i 100, Jv.i 80, Jv.i 10],
   [Jv.s "d1", Jv.i 120, Jv.i 90, Jv.i 15]]

end SolarLog

/-! ## Theorems

Shared helper lemmas first, then one theorem per claim (with witnesses and
counterexamples where required). -/

namespace SolarLog

set_option maxRecDepth 8000

/-- Normal form of `process_production_consumption` on integer 780/781
values: the published list as a function of production `P`, consumption `C`
and the battery array. -/
theorem prodConsPubs_eq (P C : Int) (bd : List Jv) :
    processProductionConsumption (some (Jv.i P)) (some (Jv.i C)) bd =
      [("status/pac", Pub.i (P - (bd.getD 3 Jv.null).asInt)),
       ("status/conspac", Pub.i (C - (bd.getD 2 Jv.null).asInt)),
       ("status/feed", Pub.i (P - C))] ++
      (if 0 < P - C then
        [("status/feedin", Pub.i (P - C)),
         ("status/feedinactive", Pub.b true),
         ("status/feedout", Pub.i 0)]
      else
        [("status/feedin", Pub.i 0),
         ("status/feedinactive", Pub.b false),
         ("status/feedout", Pub.i ((P - C).natAbs : Int))]) := by
  have hP : (if (Jv.i P).truthy = true then (Jv.i P).asInt else 0) = P := by
    by_cases h : P = 0 <;> simp [Jv.truthy, Jv.asInt, h]
  have hC : (if (Jv.i C).truthy = true then (Jv.i C).asInt else 0) = C := by
    by_cases h : C = 0 <;> simp [Jv.truthy, Jv.asInt, h]
  simp only [processProductionConsumption, hP, hC]

/-- A non-200 status or a decode failure leaves the request counter
untouched. -/
theorem makeRequest_failedResponse (rd : String) (c : Nat) (o : HttpOutcome)
    (h : isFailedResponse o = true) : (makeRequest rd c o).2 = c := by
  cases o with
  | transportError => exact absurd h (by simp [isFailedResponse])
  | resp status body =>
    unfold makeRequest
    by_cases h200 : status = 200
    · subst h200
      cases body with
      | ok => simp [isFailedResponse] at h
      | fail => split_ifs <;> rfl
    · cases body <;> split_ifs <;> simp_all

/-- A run consisting only of non-200/decode failures leaves the counter at
its starting value. -/
theorem runRequests_const (reqs : List (String × HttpOutcome)) (c : Nat)
    (h : ∀ r ∈ reqs, isFailedResponse r.2 = true) : runRequests reqs c = c := by
  induction reqs generalizing c with
  | nil => rfl
  | cons r t ih =>
    unfold runRequests at *
    simp only [List.foldl_cons]
    rw [makeRequest_failedResponse r.1 c r.2 (h r (by simp))]
    exact ih c (fun x hx => h x (by simp [hx]))

/-- Claim C1 (amended): in the periodic 801/170 summary block, a zero value
is never published for status/pac, status/pdc, status/uac or status/udc
(zero suppression holds for them), but status/conspac (key 110) is published
unconditionally — with its payload value even when that value is zero — so
zero suppression does NOT extend to status/conspac. -/
theorem C1_periodic_zero_suppression (j : List (Nat × Jv)) :
    ("status/pac", Pub.i 0) ∉ (processPeriodic170 j).1 ∧
    ("status/pdc", Pub.i 0) ∉ (processPeriodic170 j).1 ∧
    ("status/uac", Pub.i 0) ∉ (processPeriodic170 j).1 ∧
    ("status/udc", Pub.i 0) ∉ (processPeriodic170 j).1 ∧
    ("status/conspac", Pub.i (jget j 110 (Jv.i 0)).asInt) ∈ (processPeriodic170 j).1 := by
  unfold processPeriodic170
  refine ⟨?_, ?_, ?_, ?_, ?_⟩ <;>
    simp only [List.mem_append, List.mem_cons, List.not_mem_nil, or_false, false_or,
      Prod.mk.injEq] <;>
    split_ifs <;> simp_all <;> omega

/-- Claim C1 counterexample: in a cycle where the fast decoder published the
non-zero instantaneous value 50 for status/conspac, a periodic 801/170 block
carrying 0 at key 110 still republishes ("status/conspac", 0) — the claim
that zero values are suppressed for status/conspac is false on the code. -/
theorem C1_conspac_zero_republished :
    ("status/conspac", Pub.i 50) ∈
      processProductionConsumption (some (Jv.i 100)) (some (Jv.i 50))
        [Jv.i 0, Jv.i 0, Jv.i 0, Jv.i 0] ∧
    ("status/conspac", Pub.i 0) ∈ (processPeriodic170 [(110, Jv.i 0)]).1 := by
  decide

/-- Claim C2 (amended): when the FIRST entry of the 608 status field is a
non-null value whose string form contains "DENIED", the fast decoder takes
the bridge-restart path and publishes no metric from that payload. -/
theorem C2_first_entry_denied_restart (st : PState) (p : FastPayload)
    (first : Jv) (rest : List Jv)
    (h : p.f608 = some (first :: rest)) (hd : strIn "DENIED" first.toStr = true) :
    processFastPollData st p = (true, []) := by
  have hca : checkAccessDenied p.f608 = true := by
    rw [h]
    show ((first != Jv.null) && strIn "DENIED" first.toStr) = true
    rw [hd, Bool.and_true]
    cases first with
    | null => exact absurd hd (by decide)
    | i n => rfl
    | s v => rfl
    | a xs => rfl
  unfold processFastPollData
  rw [hca]
  simp

/-- Witness for C2: a payload whose first 608 entry contains "DENIED"
triggers the restart path with no publishes. -/
theorem C2_witness_denied :
    processFastPollData {} { f608 := some [Jv.s "ACCESS DENIED"] } = (true, []) :=
  C2_first_entry_denied_restart {} { f608 := some [Jv.s "ACCESS DENIED"] }
    (Jv.s "ACCESS DENIED") [] rfl (by decide)

/-- Claim C2 counterexample: a "DENIED" string anywhere OTHER than the first
entry of 608 does not trigger the restart path — the fast pipeline runs and
publishes metrics from the payload. -/
theorem C2_denied_second_entry_ignored :
    strIn "DENIED" (Jv.s "ACCESS DENIED").toStr = true ∧
    processFastPollData {} { f608 := some [Jv.s "OK", Jv.s "ACCESS DENIED"],
                             f780 := some (Jv.i 100), f781 := some (Jv.i 50) }
      = (false,
         [("status/pac", Pub.i 100), ("status/conspac", Pub.i 50),
          ("status/feed", Pub.i 50), ("status/feedin", Pub.i 50),
          ("status/feedinactive", Pub.b true), ("status/feedout", Pub.i 0)]) := by
  decide

/-- Claim C3 (amended): with non-empty device/brand tables and device_infos,
every index is classified independently — index i of the result lists equals
the classification of its own info code in isolation — and an info code with
no device-table entry degrades to "Unknown"/"Unknown"/"Wechselrichter" for
that index alone.  (A present entry with a non-power-of-two bitmask is NOT
degraded: its class is DEVICE_CLASS_LIST[floor(log2 mask)] — see the
counterexample.) -/
theorem C3_classification_localized (st : PState)
    (hdl : st.deviceList ≠ []) (hbl : st.brandList ≠ []) (hdi : st.deviceInfos ≠ [])
    (i : Nat) (name : String) (info : Int)
    (hi : (st.inverterNames.zip st.deviceInfos)[i]? = some (name, info)) :
    ((classifyDevices st).1[i]? = some (classifyOne st.deviceList st.brandList info).1 ∧
     (classifyDevices st).2.1[i]? = some (classifyOne st.deviceList st.brandList info).2.1 ∧
     (classifyDevices st).2.2[i]? = some (classifyOne st.deviceList st.brandList info).2.2) ∧
    (lookupIndexed st.deviceList info = none →
      classifyOne st.deviceList st.brandList info = ("Unknown", "Unknown", "Wechselrichter")) := by
  constructor
  · have hguard : ¬ (st.deviceList = [] ∨ st.brandList = [] ∨ st.deviceInfos = []) := by
      simp [hdl, hbl, hdi]
    unfold classifyDevices
    rw [if_neg hguard]
    refine ⟨?_, ?_, ?_⟩ <;> simp [List.getElem?_map, hi]
  · intro hnone
    unfold classifyOne
    rw [hnone]

/-- Witness for C3: index 0 classifies from its table entry, index 1 — whose
lookup fails — degrades to Unknown/default, independently. -/
theorem C3_witness_classification :
    (classifyDevices c3st).1[0]? = some "TypeX" ∧
    (classifyDevices c3st).2.1[0]? = some "BrandX" ∧
    (classifyDevices c3st).2.2[0]? = some "Zähler" ∧
    (classifyDevices c3st).1[1]? = some "Unknown" ∧
    (classifyDevices c3st).2.2[1]? = some "Wechselrichter" := by
  have h0 := C3_classification_localized c3st (by decide) (by decide) (by decide)
    0 "A" 5 (by decide)
  have h1 := C3_classification_localized c3st (by decide) (by decide) (by decide)
    1 "B" 7 (by decide)
  refine ⟨?_, ?_, ?_, ?_, ?_⟩
  · rw [h0.1.1]; decide
  · rw [h0.1.2.1]; decide
  · rw [h0.1.2.2]; decide
  · rw [h1.1.1]; decide
  · rw [h1.1.2.2]; decide

/-- Claim C3 counterexample: a present table entry whose class bitmask 3 is
NOT a power of two does not degrade the device to Unknown/default — the code
maps it through floor(log2 3) = 1 to the real class "Sensor" and keeps the
entry's type and brand. -/
theorem C3_nonpow2_bitmask_not_unknown :
    classifyOne [(5, ⟨0, "TypeX", some 3⟩)] [(0, "BrandX")] 5
      = ("TypeX", "BrandX", "Sensor") ∧
    ("TypeX", "BrandX", "Sensor") ≠ ("Unknown", "Unknown", "Wechselrichter") := by
  decide

/-- Claim C4 (code bug): on scenario 3's rows the historic decoder publishes
the claimed self-consumption values 15 and 10, but the ratios it publishes
are 16666.7 (= 166667/10) and 12500.0 — one thousand times the claimed 16.7
and 12.5 — because line 920 computes
`round(((selfcons * 1000) / cons) * 1000) / 10`, scaling by 1000 twice,
unlike the daily ratio of line 743 which scales once. -/
theorem C4_historic_ratio_double_scaled :
    ("SelfCons/selfconsmonth", Pub.i 15) ∈
      processHistoricResponse {} { h877 := some c4rows } ∧
    ("SelfCons/selfconslastmonth", Pub.i 10) ∈
      processHistoricResponse {} { h877 := some c4rows } ∧
    ("SelfCons/selfconsratiomonth", Pub.ratio 166667) ∈
      processHistoricResponse {} { h877 := some c4rows } ∧
    ("SelfCons/selfconsratiolastmonth", Pub.ratio 125000) ∈
      processHistoricResponse {} { h877 := some c4rows } ∧
    ("SelfCons/selfconsratiomonth", Pub.ratio 167) ∉
      processHistoricResponse {} { h877 := some c4rows } ∧
    ("SelfCons/selfconsratiolastmonth", Pub.ratio 125) ∉
      processHistoricResponse {} { h877 := some c4rows } := by
  decide

/-- Claim C5 (amended): the /months.json and /years.json decoders take the
current-period aggregate from the FIRST row (`data[0]`) and the previous
period from the SECOND row (`data[1]`) — not from the last and
second-to-last rows as the 877/878 decoders do. -/
theorem C5_json_first_rows (rows : List HRow) (hlen : 2 ≤ rows.length)
    (hc : 4 ≤ (rows.getD 0 []).length) (hs : 4 ≤ (rows.getD 1 []).length) :
    ("SelfCons/selfconsmonth", Pub.i ((rows.getD 0 []).getD 3 Jv.null).asInt) ∈
      processMonthsJson rows ∧
    ("SelfCons/selfconslastmonth", Pub.i ((rows.getD 1 []).getD 3 Jv.null).asInt) ∈
      processMonthsJson rows ∧
    ("SelfCons/selfconsyear", Pub.i ((rows.getD 0 []).getD 3 Jv.null).asInt) ∈
      processYearsJson rows ∧
    ("SelfCons/selfconslastyear", Pub.i ((rows.getD 1 []).getD 3 Jv.null).asInt) ∈
      processYearsJson rows := by
  have h1 : 1 < rows.length := by omega
  refine ⟨?_, ?_, ?_, ?_⟩ <;>
    simp_all [processMonthsJson, processYearsJson, selfconsAggPubs, hlen, h1,
      List.mem_append]

/-- Witness for C5 on a concrete two-row array. -/
theorem C5_witness_json_rows :
    ("SelfCons/selfconsmonth", Pub.i 3) ∈
      processMonthsJson [[Jv.s "a", Jv.i 1, Jv.i 2, Jv.i 3],
                         [Jv.s "b", Jv.i 4, Jv.i 5, Jv.i 6]] ∧
    ("SelfCons/selfconslastmonth", Pub.i 6) ∈
      processMonthsJson [[Jv.s "a", Jv.i 1, Jv.i 2, Jv.i 3],
                         [Jv.s "b", Jv.i 4, Jv.i 5, Jv.i 6]] ∧
    ("SelfCons/selfconsyear", Pub.i 3) ∈
      processYearsJson [[Jv.s "a", Jv.i 1, Jv.i 2, Jv.i 3],
                        [Jv.s "b", Jv.i 4, Jv.i 5, Jv.i 6]] ∧
    ("SelfCons/selfconslastyear", Pub.i 6) ∈
      processYearsJson [[Jv.s "a", Jv.i 1, Jv.i 2, Jv.i 3],
                        [Jv.s "b", Jv.i 4, Jv.i 5, Jv.i 6]] := by
  have h := C5_json_first_rows
    [[Jv.s "a", Jv.i 1, Jv.i 2, Jv.i 3], [Jv.s "b", Jv.i 4, Jv.i 5, Jv.i 6]]
    (by decide) (by decide) (by decide)
  exact ⟨h.1, h.2.1, h.2.2.1, h.2.2.2⟩

/-- Claim C5 counterexample: on a three-row array whose first row carries
self-consumption 3 and whose LAST row carries 9, /months.json publishes the
current-month value 3 (first row) and never 9, while the 877 decoder on the
same rows publishes 9 (last row) — the row-selection rules differ. -/
theorem C5_json_not_last_row :
    ("SelfCons/selfconsmonth", Pub.i 3) ∈
      processMonthsJson [[Jv.s "31.01.25", Jv.i 1, Jv.i 2, Jv.i 3],
                         [Jv.s "31.12.24", Jv.i 4, Jv.i 5, Jv.i 6],
                         [Jv.s "30.11.24", Jv.i 7, Jv.i 8, Jv.i 9]] ∧
    ("SelfCons/selfconsmonth", Pub.i 9) ∉
      processMonthsJson [[Jv.s "31.01.25", Jv.i 1, Jv.i 2, Jv.i 3],
                         [Jv.s "31.12.24", Jv.i 4, Jv.i 5, Jv.i 6],
                         [Jv.s "30.11.24", Jv.i 7, Jv.i 8, Jv.i 9]] ∧
    ("SelfCons/selfconsmonth", Pub.i 9) ∈
      processHistoricResponse {}
        { h877 := some [[Jv.s "31.01.25", Jv.i 1, Jv.i 2, Jv.i 3],
                        [Jv.s "31.12.24", Jv.i 4, Jv.i 5, Jv.i 6],
                        [Jv.s "30.11.24", Jv.i 7, Jv.i 8, Jv.i 9]] } := by
  decide

/-- Claim C6 (confirmed): for a fast payload with production P (780) and
consumption C (781), the published feed values satisfy feed = P − C; when
feed > 0 the decoder publishes feedin = feed, feedout = 0 and
feedinactive = true, otherwise feedin = 0, feedout = |feed| and
feedinactive = false. -/
theorem C6_feed_split (P C : Int) (bd : List Jv) :
    ("status/feed", Pub.i (P - C)) ∈
      processProductionConsumption (some (Jv.i P)) (some (Jv.i C)) bd ∧
    (0 < P - C →
      ("status/feedin", Pub.i (P - C)) ∈
        processProductionConsumption (some (Jv.i P)) (some (Jv.i C)) bd ∧
      ("status/feedinactive", Pub.b true) ∈
        processProductionConsumption (some (Jv.i P)) (some (Jv.i C)) bd ∧
      ("status/feedout", Pub.i 0) ∈
        processProductionConsumption (some (Jv.i P)) (some (Jv.i C)) bd) ∧
    (¬ 0 < P - C →
      ("status/feedin", Pub.i 0) ∈
        processProductionConsumption (some (Jv.i P)) (some (Jv.i C)) bd ∧
      ("status/feedinactive", Pub.b false) ∈
        processProductionConsumption (some (Jv.i P)) (some (Jv.i C)) bd ∧
      ("status/feedout", Pub.i ((P - C).natAbs : Int)) ∈
        processProductionConsumption (some (Jv.i P)) (some (Jv.i C)) bd) := by
  rw [prodConsPubs_eq]
  refine ⟨by simp, fun hf => ?_, fun hf => ?_⟩
  · rw [if_pos hf]
    exact ⟨by simp, by simp, by simp⟩
  · rw [if_neg hf]
    exact ⟨by simp, by simp, by simp⟩

/-- Witness for C6: a feed-in case (100 − 30 = 70) and a feed-out case
(10 − 50 = −40). -/
theorem C6_witness_feed :
    ("status/feedin", Pub.i 70) ∈
      processProductionConsumption (some (Jv.i 100)) (some (Jv.i 30)) [] ∧
    ("status/feedout", Pub.i 40) ∈
      processProductionConsumption (some (Jv.i 10)) (some (Jv.i 50)) [] := by
  constructor
  · exact ((C6_feed_split 100 30 []).2.1 (by decide)).1
  · exact ((C6_feed_split 10 50 []).2.2 (by decide)).2.2

/-- Claim C7 (confirmed): when a periodic 778/0 row matches today's date and
has a value cell, the published SelfCons/selfconsratiotoday is
round(S / Y * 1000) / 10 (as the tenths value pyRoundFrac (S*1000) Y) when
the cached daily yield Y is positive, and the integer 0 when Y = 0. -/
theorem C7_selfcons_ratio (st : PState) (today yesterday : String)
    (rows : List HRow) (i : Nat)
    (hti : scanIdx rows today = some i) (hlen : 1 < (rows.getD i []).length) :
    (0 < st.lastYieldDay →
      ("SelfCons/selfconsratiotoday",
        Pub.ratio (pyRoundFrac (selfconsValue (rows.getD i []) * 1000) st.lastYieldDay)) ∈
        (processSelfConsumption st today yesterday rows).pubs) ∧
    (st.lastYieldDay = 0 →
      ("SelfCons/selfconsratiotoday", Pub.i 0) ∈
        (processSelfConsumption st today yesterday rows).pubs) := by
  have key : ("SelfCons/selfconsratiotoday",
      if 0 < st.lastYieldDay then
        Pub.ratio (pyRoundFrac (selfconsValue (rows.getD i []) * 1000) st.lastYieldDay)
      else Pub.i 0) ∈ (processSelfConsumption st today yesterday rows).pubs := by
    simp only [processSelfConsumption, hti, hlen, if_true]
    split <;> simp [List.mem_append]
  constructor
  · intro hY
    have h := key
    rw [if_pos hY] at h
    exact h
  · intro hY
    have h := key
    rw [if_neg (by omega)] at h
    exact h

/-- Witness for C7: S = 50, Y = 200 gives ratio 25.0 (tenths 250); Y = 0
gives the integer 0. -/
theorem C7_witness_ratio :
    ("SelfCons/selfconsratiotoday", Pub.ratio 250) ∈
      (processSelfConsumption { lastYieldDay := 200 } "01.01.25" "31.12.24"
        [[Jv.s "01.01.25", Jv.i 50]]).pubs ∧
    ("SelfCons/selfconsratiotoday", Pub.i 0) ∈
      (processSelfConsumption {} "01.01.25" "31.12.24"
        [[Jv.s "01.01.25", Jv.i 50]]).pubs := by
  constructor
  · exact (C7_selfcons_ratio { lastYieldDay := 200 } "01.01.25" "31.12.24"
      [[Jv.s "01.01.25", Jv.i 50]] 0 (by decide) (by decide)).1 (by decide)
  · exact (C7_selfcons_ratio {} "01.01.25" "31.12.24"
      [[Jv.s "01.01.25", Jv.i 50]] 0 (by decide) (by decide)).2 rfl

/-- Claim C8 (amended): login returns True (leaving state untouched) without
issuing any request when no credentials are configured; with credentials it
resets the failure counter to 0 and stores the extracted token on a 200
response carrying the SolarLog cookie; it increments the counter on a
transport error/timeout and on a non-200 status; but a 200 response whose
cookie LACKS the session token returns False with the counter unchanged (no
increment).  All outcomes return a value — nothing is raised. -/
theorem C8_login_cases :
    (∀ (sp : Bool) (f : Nat) (tok : String) (o : LoginOutcome),
      login false sp f tok o = (true, f, tok)) ∧
    (∀ (f : Nat) (tok : String),
      login true true f tok LoginOutcome.transportError = (false, f + 1, tok)) ∧
    (∀ (f : Nat) (tok ck : String) (status : Nat), status ≠ 200 →
      login true true f tok (LoginOutcome.resp status ck) = (false, f + 1, tok)) ∧
    (∀ (f : Nat) (tok ck : String), strIn "SolarLog=" ck = false →
      login true true f tok (LoginOutcome.resp 200 ck) = (false, f, tok)) ∧
    (∀ (f : Nat) (tok ck : String), strIn "SolarLog=" ck = true →
      login true true f tok (LoginOutcome.resp 200 ck) = (true, 0, extractToken ck)) := by
  refine ⟨?_, ?_, ?_, ?_, ?_⟩ <;> intros <;> simp_all [login]

/-- Witness for C8: no-credential success, transport failure, non-200
failure, and a successful token extraction. -/
theorem C8_witness_login :
    login false true 3 "t" LoginOutcome.transportError = (true, 3, "t") ∧
    login true true 3 "t" LoginOutcome.transportError = (false, 4, "t") ∧
    login true true 3 "t" (LoginOutcome.resp 404 "x") = (false, 4, "t") ∧
    login true true 3 "t" (LoginOutcome.resp 200 "SolarLog=abc; path=/") = (true, 0, "abc") := by
  refine ⟨C8_login_cases.1 true 3 "t" LoginOutcome.transportError,
          C8_login_cases.2.1 3 "t",
          C8_login_cases.2.2.1 3 "t" "x" 404 (by decide), ?_⟩
  have h := C8_login_cases.2.2.2.2 3 "t" "SolarLog=abc; path=/" (by decide)
  have e : extractToken "SolarLog=abc; path=/" = "abc" := by decide
  rw [e] at h
  exact h

/-- Claim C8 counterexample: a 200 login response without the SolarLog
cookie is a failure (returns False) yet does NOT increment the
login-failure counter, contradicting the claim that every failure case
increments it. -/
theorem C8_missing_token_no_increment :
    login true true 0 "tok" (LoginOutcome.resp 200 "banner_hidden=false")
      = (false, 0, "tok") ∧
    (login true true 0 "tok" (LoginOutcome.resp 200 "banner_hidden=false")).2.1 ≠ 0 + 1 := by
  decide

/-- Claim C9 (confirmed): the request counter is incremented only by a
transport error/timeout; a non-200 response or a decode failure returns an
absent result leaving the counter unchanged, so a run of such failures keeps
the counter at its starting value and, from 0, can never exceed
MAX_REQUEST_FAILURES; the counter moves to 0 only on a successfully decoded
non-static (/getjp) response — a successful static .json fetch leaves it
unchanged. -/
theorem C9_request_counter :
    (∀ (rd : String) (c : Nat),
      makeRequest rd c HttpOutcome.transportError = (false, c + 1)) ∧
    (∀ (rd : String) (c status : Nat) (body : DecodeResult), status ≠ 200 →
      makeRequest rd c (HttpOutcome.resp status body) = (false, c)) ∧
    (∀ (rd : String) (c : Nat),
      makeRequest rd c (HttpOutcome.resp 200 DecodeResult.fail) = (false, c)) ∧
    (∀ (rd : String) (c : Nat), strIn ".json" rd = true →
      makeRequest rd c (HttpOutcome.resp 200 DecodeResult.ok) = (true, c)) ∧
    (∀ (rd : String) (c : Nat), strIn ".json" rd = false →
      makeRequest rd c (HttpOutcome.resp 200 DecodeResult.ok) = (true, 0)) ∧
    (∀ (rd : String) (c : Nat) (o : HttpOutcome), c ≠ 0 → (makeRequest rd c o).2 = 0 →
      strIn ".json" rd = false ∧ o = HttpOutcome.resp 200 DecodeResult.ok) ∧
    (∀ (reqs : List (String × HttpOutcome)) (c : Nat),
      (∀ r ∈ reqs, isFailedResponse r.2 = true) →
      runRequests reqs c = c ∧ ¬ MAX_REQUEST_FAILURES < runRequests reqs 0) := by
  refine ⟨?_, ?_, ?_, ?_, ?_, ?_, ?_⟩
  · intro rd c
    unfold makeRequest
    split_ifs <;> rfl
  · intro rd c status body h
    unfold makeRequest
    split_ifs <;> simp_all
  · intro rd c
    unfold makeRequest
    split_ifs <;> rfl
  · intro rd c h
    simp [makeRequest, h]
  · intro rd c h
    simp [makeRequest, h]
  · intro rd c o hc hres
    by_cases hj : strIn ".json" rd = true
    · exfalso
      unfold makeRequest at hres
      rw [if_pos hj] at hres
      cases o with
      | transportError => simp at hres
      | resp status body =>
        cases body <;> by_cases hst : status = 200 <;> simp [hst] at hres <;> omega
    · refine ⟨by simpa using hj, ?_⟩
      unfold makeRequest at hres
      rw [if_neg hj] at hres
      cases o with
      | transportError => simp at hres
      | resp status body =>
        cases body with
        | ok =>
          by_cases hst : status = 200
          · subst hst; rfl
          · simp [hst] at hres; omega
        | fail =>
          by_cases hst : status = 200 <;> simp [hst] at hres <;> omega
  · intro reqs c h
    refine ⟨runRequests_const reqs c h, ?_⟩
    rw [runRequests_const reqs 0 h]
    decide

/-- Witness for C9: a transport failure increments 2 → 3; a run of one 404
and one decode failure leaves the counter at 0, below the restart
threshold. -/
theorem C9_witness_counter :
    makeRequest "getjp-body" 2 HttpOutcome.transportError = (false, 3) ∧
    runRequests [("a", HttpOutcome.resp 404 DecodeResult.ok),
                 ("b", HttpOutcome.resp 200 DecodeResult.fail)] 0 = 0 ∧
    ¬ MAX_REQUEST_FAILURES <
        runRequests [("a", HttpOutcome.resp 404 DecodeResult.ok),
                     ("b", HttpOutcome.resp 200 DecodeResult.fail)] 0 := by
  refine ⟨C9_request_counter.1 "getjp-body" 2, ?_, ?_⟩
  · exact (C9_request_counter.2.2.2.2.2.2
      [("a", HttpOutcome.resp 404 DecodeResult.ok),
       ("b", HttpOutcome.resp 200 DecodeResult.fail)] 0 (by decide)).1
  · exact (C9_request_counter.2.2.2.2.2.2
      [("a", HttpOutcome.resp 404 DecodeResult.ok),
       ("b", HttpOutcome.resp 200 DecodeResult.fail)] 0 (by decide)).2

/-- Claim C10 (confirmed): when no 778/0 row matches today or yesterday and
the fallback cache still holds its initial values (no earlier call ever
matched a today row), the decoder publishes the sentinel 99 for both
SelfCons/selfconsyesterday and SelfCons/selfconsratioyesterday. -/
theorem C10_sentinel_fallback (st : PState) (today yesterday : String)
    (rows : List HRow)
    (h1 : scanIdx rows today = none) (h2 : scanIdx rows yesterday = none)
    (h3 : st.fallbackSelfcons = 99) (h4 : st.fallbackRatioPub = Pub.i 99) :
    ("SelfCons/selfconsyesterday", Pub.i 99) ∈
      (processSelfConsumption st today yesterday rows).pubs ∧
    ("SelfCons/selfconsratioyesterday", Pub.i 99) ∈
      (processSelfConsumption st today yesterday rows).pubs := by
  simp [processSelfConsumption, h1, h2, h3, h4]

/-- Witness for C10: a fresh state and a row matching neither date publish
99/99. -/
theorem C10_witness_sentinel :
    ("SelfCons/selfconsyesterday", Pub.i 99) ∈
      (processSelfConsumption {} "01.01.25" "31.12.24" [[Jv.s "05.05.25", Jv.i 7]]).pubs ∧
    ("SelfCons/selfconsratioyesterday", Pub.i 99) ∈
      (processSelfConsumption {} "01.01.25" "31.12.24" [[Jv.s "05.05.25", Jv.i 7]]).pubs :=
  C10_sentinel_fallback {} "01.01.25" "31.12.24" [[Jv.s "05.05.25", Jv.i 7]]
    (by decide) (by decide) rfl rfl

end SolarLog
